import Mathlib

/-!
Verification of the proxy acquisition and validation pipeline of the
proxies-ng repository (`app/tasks/*`), against its natural-language
specification.  The Python source is shallowly embedded: pure functions
become Lean functions, network calls become explicit outcome parameters
(oracles), and ORM state becomes explicit record passing.  Machine details
kept faithful to the source: Python `str.split`, `int()`, `ipaddress`
parsing rules, truthiness of optional strings, and the exact control flow
of the task modules.
-/

namespace ProxiesNg

/-- Embeds `Protocol` (src/app/models/proxy.py:34-48), a `StrEnum` with
values `"HTTP"`, `"HTTPS"`, `"SOCKS4"`, `"SOCKS5"`. -/
inductive Protocol where
  | HTTP
  | HTTPS
  | SOCKS4
  | SOCKS5
deriving DecidableEq, Repr

/-- The `.value` of the `StrEnum` member (the member name itself). -/
def Protocol.value : Protocol → String
  | .HTTP => "HTTP"
  | .HTTPS => "HTTPS"
  | .SOCKS4 => "SOCKS4"
  | .SOCKS5 => "SOCKS5"

/-- A Python `ipaddress.IPv4Address`: four octets.  The pipeline's claims
exercise only IPv4 literals; inside `try_parse_ip_port` the string handed
to `ip_address` is a colon-free segment of a `split(":")`, so the IPv6
textual grammar (which requires a colon) is unreachable there. -/
structure Ipv4 where
  a : Nat
  b : Nat
  c : Nat
  d : Nat
deriving DecidableEq, Repr

/-- Renders an `IPv4Address` the way Python's `str()` does: dotted quad. -/
def Ipv4.toStr (ip : Ipv4) : String :=
  toString ip.a ++ "." ++ toString ip.b ++ "." ++ toString ip.c ++ "." ++ toString ip.d

/-- The 32-bit integer value of an IPv4 address. -/
def Ipv4.toNat (ip : Ipv4) : Nat :=
  ((ip.a * 256 + ip.b) * 256 + ip.c) * 256 + ip.d

/-- ASCII decimal digit test (Python's `str.isdigit` restricted to ASCII,
which is all the parsed inputs contain). -/
def isAsciiDigit (c : Char) : Bool :=
  '0' ≤ c && c ≤ '9'

/-- Splitter on a single separator character, Python `str.split(sep)` for
a one-character separator: splitting the empty string yields `[""]`, and
adjacent separators yield empty fields. -/
def charSplitGo (sep : Char) (cur : List Char) : List Char → List (List Char)
  | [] => [cur.reverse]
  | c :: rest =>
      if c = sep then cur.reverse :: charSplitGo sep [] rest
      else charSplitGo sep (c :: cur) rest

/-- Python `s.split(sep)` for a one-character separator. -/
def pySplit (s : String) (sep : Char) : List String :=
  (charSplitGo sep [] s.data).map fun cs => ⟨cs⟩

/-- ASCII lower-casing of one character (Python `str.lower` on the ASCII
range, which is all the formatter's inputs use). -/
def asciiLowerChar (c : Char) : Char :=
  if 'A' ≤ c ∧ c ≤ 'Z' then Char.ofNat (c.toNat + 32) else c

/-- ASCII `str.lower`. -/
def asciiLower (s : String) : String :=
  ⟨s.data.map asciiLowerChar⟩

/-- Python whitespace characters stripped by `int()` (ASCII subset). -/
def isPySpace (c : Char) : Bool :=
  c = ' ' || c = '\t' || c = '\n' || c = '\r' || c = '\x0b' || c = '\x0c'

/-- Digit-run accumulator for `int()`: after the first digit, single
underscores are permitted between digits. -/
def pyDigitsGo (acc : Nat) : List Char → Option Nat
  | [] => some acc
  | '_' :: c :: rest =>
      if isAsciiDigit c then pyDigitsGo (acc * 10 + (c.toNat - 48)) rest else none
  | '_' :: [] => none
  | c :: rest =>
      if isAsciiDigit c then pyDigitsGo (acc * 10 + (c.toNat - 48)) rest else none

/-- A nonempty digit run, Python `int()` style (underscores between digits). -/
def pyDigits : List Char → Option Nat
  | [] => none
  | c :: rest =>
      if isAsciiDigit c then pyDigitsGo (c.toNat - 48) rest else none

/-- Embeds Python's `int(s)` on strings: optional surrounding whitespace,
optional sign, then a digit run.  Returns `none` where Python raises
`ValueError`. -/
def pyInt (s : String) : Option Int :=
  let cs := (s.data.dropWhile isPySpace).reverse.dropWhile isPySpace |>.reverse
  match cs with
  | '+' :: rest => (pyDigits rest).map Int.ofNat
  | '-' :: rest => (pyDigits rest).map (fun n => -(Int.ofNat n))
  | rest => (pyDigits rest).map Int.ofNat

/-- One dotted-quad octet, per CPython `ipaddress._parse_octet`: nonempty,
at most 3 characters, ASCII digits only, no leading zero (unless the octet
is exactly `0`), value at most 255. -/
def parseOctet (cs : List Char) : Option Nat :=
  match cs with
  | [] => none
  | c :: rest =>
      if ¬ (c :: rest).all isAsciiDigit then none
      else if (c :: rest).length > 3 then none
      else if c = '0' ∧ rest ≠ [] then none
      else
        let v := (c :: rest).foldl (fun acc ch => acc * 10 + (ch.toNat - 48)) 0
        if v > 255 then none else some v

/-- Embeds `ipaddress.ip_address(s)` for the strings this pipeline feeds
it: a dotted-quad IPv4 literal parses; anything else (including the IPv6
grammar, whose forms all contain a colon and never reach this call inside
`try_parse_ip_port`) is a `ValueError`, modelled as `none`. -/
def ipAddress (s : String) : Option Ipv4 :=
  match pySplit s '.' with
  | [p1, p2, p3, p4] =>
      match parseOctet p1.data, parseOctet p2.data, parseOctet p3.data, parseOctet p4.data with
      | some a, some b, some c, some d => some ⟨a, b, c, d⟩
      | _, _, _, _ => none
  | _ => none

/-- Membership of a 32-bit address value in a CIDR network. -/
def inNetwork (v : Nat) (net : Ipv4) (maskBits : Nat) : Bool :=
  v / 2 ^ (32 - maskBits) = net.toNat / 2 ^ (32 - maskBits)

/-- CPython `IPv4Address.is_private`: the `_private_networks` list of the
`ipaddress` module. -/
def Ipv4.isPrivate (ip : Ipv4) : Bool :=
  let v := ip.toNat
  inNetwork v ⟨0, 0, 0, 0⟩ 8 ||
  inNetwork v ⟨10, 0, 0, 0⟩ 8 ||
  inNetwork v ⟨127, 0, 0, 0⟩ 8 ||
  inNetwork v ⟨169, 254, 0, 0⟩ 16 ||
  inNetwork v ⟨172, 16, 0, 0⟩ 12 ||
  inNetwork v ⟨192, 0, 0, 0⟩ 29 ||
  inNetwork v ⟨192, 0, 0, 170⟩ 31 ||
  inNetwork v ⟨192, 0, 2, 0⟩ 24 ||
  inNetwork v ⟨192, 168, 0, 0⟩ 16 ||
  inNetwork v ⟨198, 18, 0, 0⟩ 15 ||
  inNetwork v ⟨198, 51, 100, 0⟩ 24 ||
  inNetwork v ⟨203, 0, 113, 0⟩ 24 ||
  inNetwork v ⟨240, 0, 0, 0⟩ 4 ||
  inNetwork v ⟨255, 255, 255, 255⟩ 32

/-- CPython `IPv4Address.is_global`: not in the shared-address space
`100.64.0.0/10` and not private.  Used by `fetch_proxies`
(src/app/tasks/fetch_proxies.py:229) to keep only public addresses. -/
def Ipv4.isGlobal (ip : Ipv4) : Bool :=
  ¬ inNetwork ip.toNat ⟨100, 64, 0, 0⟩ 10 && ¬ ip.isPrivate

/-- Embeds `validate_port` (src/app/tasks/fetch_proxies.py:29-40): `true`
means no `ValueError` is raised, i.e. the port lies in `[1, 65535]`. -/
def validatePort (port : Int) : Bool :=
  1 ≤ port && port ≤ 65535

/-- Embeds `try_parse_ip_port` (src/app/tasks/fetch_proxies.py:43-74):
split the line on `":"`; two parts are `ip:port`, three parts are
`scheme://ip:port` with the scheme segment discarded and leading slashes
stripped from the address segment; any other colon count is rejected.
The address must parse with `ip_address` and the port with `int` inside
the valid range; every `ValueError` yields `None`. -/
def tryParseIpPort (proxyLine : String) : Option (Ipv4 × Int) :=
  let substrings := pySplit proxyLine ':'
  let parsed : Option (String × String) :=
    match substrings with
    | [ipStr, portStr] => some (ipStr, portStr)
    | [_, ipStr, portStr] => some (⟨ipStr.data.dropWhile (fun c => c = '/')⟩, portStr)
    | _ => none
  match parsed with
  | none => none
  | some (ipStr, portStr) =>
      match ipAddress ipStr, pyInt portStr with
      | some ip, some port => if validatePort port then some (ip, port) else none
      | _, _ => none

/-- Python exceptions that the embedded functions can raise or swallow. -/
inductive PyErr where
  | unboundLocalError
  | attributeError
  | valueError
deriving DecidableEq, Repr

/-- Splitter for Python `str.splitlines` (ASCII line breaks `\n`, `\r`,
`\r\n`, which is all the proxy lists contain). -/
def pySplitlinesGo (cur : List Char) : List Char → List (List Char)
  | [] => if cur = [] then [] else [cur.reverse]
  | '\r' :: '\n' :: rest => cur.reverse :: pySplitlinesGo [] rest
  | '\r' :: rest => cur.reverse :: pySplitlinesGo [] rest
  | '\n' :: rest => cur.reverse :: pySplitlinesGo [] rest
  | c :: rest => pySplitlinesGo (c :: cur) rest

/-- Embeds Python `str.splitlines`. -/
def pySplitlines (s : String) : List String :=
  (pySplitlinesGo [] s.data).map fun cs => ⟨cs⟩

/-- Outcome of the `session.get` in `download_proxy_list`: either an HTTP
response (status and decoded body) or a request-level
`aiohttp.ClientError`. -/
inductive FetchOutcome where
  | response (status : Nat) (text : String)
  | clientError
deriving DecidableEq, Repr

/-- Embeds `download_proxy_list` (src/app/tasks/fetch_proxies.py:77-120).
Inside the `try`: a non-200 status returns `None`; a 200 response with an
empty body returns `None`; otherwise `data` is the body.  The
`aiohttp.ClientError` handler only logs and does NOT return, so control
falls through to `lines = data.splitlines()` where the local `data` was
never assigned: Python raises `UnboundLocalError` there, modelled as
`Except.error`.  The parse loop keeps the lines `try_parse_ip_port`
accepts, tagging each with the source's predefined protocol. -/
def downloadProxyList (outcome : FetchOutcome) (protocol : Protocol) :
    Except PyErr (Option (List (Ipv4 × Int × Protocol))) :=
  match outcome with
  | .response status text =>
      if status ≠ 200 then .ok none
      else if text = "" then .ok none
      else
        .ok (some ((pySplitlines text).filterMap
          (fun line => (tryParseIpPort line).map (fun p => (p.1, p.2, protocol)))))
  | .clientError => .error .unboundLocalError

/-- `SourceHealth` counters (src/app/models/source.py:27-56), with
timestamps as abstract `Nat` ticks. -/
structure SourceHealth where
  totalConnAttempts : Nat
  failedConnAttempts : Nat
  lastUsed : Option Nat
deriving DecidableEq, Repr

/-- A configured `Source` (src/app/models/source.py:59-87) together with
its owned health record. -/
structure Source where
  uri : String
  uriPredefinedType : Option Protocol
  health : SourceHealth
deriving DecidableEq, Repr

/-- Embeds `fetch_all_proxy_lists` (src/app/tasks/fetch_proxies.py:145-169).
One download task is created per source that has a predefined protocol;
`asyncio.gather(..., return_exceptions=True)` collects each task's result
or raised exception positionally (`download` is the oracle for those
outcomes); results that are falsy (`None` or an empty list) or exceptions
are skipped, the rest are concatenated.  The function body contains no
access to any source's health record, so the second component returns
every source's health exactly as it was. -/
def fetchAllProxyLists (sources : List Source)
    (download : String → Protocol → Except PyErr (Option (List (Ipv4 × Int × Protocol)))) :
    List (Ipv4 × Int × Protocol) × List SourceHealth :=
  let fetchResults := sources.filterMap
    (fun s => s.uriPredefinedType.map (fun proto => download s.uri proto))
  let uncheckedProxies := fetchResults.foldl
    (fun acc r =>
      match r with
      | .error _ => acc
      | .ok none => acc
      | .ok (some l) => if l = [] then acc else acc ++ l) []
  (uncheckedProxies, sources.map (·.health))

/-- Python truthiness of an optional string (`None` and `""` are falsy). -/
def pyTruthy : Option String → Bool
  | none => false
  | some s => !(s = "")

/-- The `credentials` local of `format_proxy_url`
(src/app/tasks/check_proxies.py:53-55): `login:password@` exactly when the
protocol is SOCKS5 and both login and password are truthy, else empty. -/
def credentialsFor (protocol : Protocol) (login password : Option String) : String :=
  if protocol = .SOCKS5 ∧ pyTruthy login ∧ pyTruthy password then
    login.getD "" ++ ":" ++ password.getD "" ++ "@"
  else ""

/-- The `protocol_value` local of `format_proxy_url`
(src/app/tasks/check_proxies.py:57-59): HTTPS is downgraded to the string
`http` because aiohttp only supports an HTTP-scheme proxy with TLS. -/
def protocolValueFor (protocol : Protocol) : String :=
  if protocol = .HTTPS then "http" else protocol.value

/-- Embeds `format_proxy_url` (src/app/tasks/check_proxies.py:33-61, and
identically src/app/tasks/utils/aws_check.py:9-37): the f-string
`"{protocol_value}://{credentials}{address}:{port}"` lower-cased. -/
def formatProxyUrl (address : Ipv4) (port : Nat) (protocol : Protocol)
    (login : Option String := none) (password : Option String := none) : String :=
  asciiLower (protocolValueFor protocol ++ "://" ++ credentialsFor protocol login password
    ++ address.toStr ++ ":" ++ toString port)

/-- The result of an HTTP call through a proxy
(`ProxyHttpResult`, src/app/tasks/utils/network_request.py:30-42). -/
structure ProxyHttpResult where
  time : Nat
  status : Nat
  text : String
deriving DecidableEq, Repr

/-- What the aiohttp GET inside `try_http_request_with_proxy` did: either
produced a response (with wall-time, status and raw body) or raised one of
the exception classes of the source's handler chain
(src/app/tasks/utils/network_request.py:114-128). -/
inductive RequestOutcome where
  | success (duration : Nat) (status : Nat) (body : String)
  | clientError
  | clientConnectorCertificateError
  | clientConnectorSSLError
  | proxyConnectionError
  | proxyError
  | osError
  | incompleteReadError
  | otherException
deriving DecidableEq, Repr

/-- Whether the GET raised instead of producing a response. -/
def RequestOutcome.raised : RequestOutcome → Bool
  | .success .. => false
  | _ => true

/-- Embeds `graceful_shutdown`
(src/app/tasks/utils/network_request.py:45-61) as the pause it performs,
in milliseconds: 250 for HTTPS (TLS teardown), a zero-delay yield
otherwise. -/
def gracefulShutdownMs (protocol : Protocol) : Nat :=
  if protocol = .HTTPS then 250 else 0

/-- Scheme splitter: divides a URL at the first occurrence of `://`
(what `urllib.parse.urlparse` does for the URL shapes in play). -/
def splitSchemeGo : List Char → Option (List Char × List Char)
  | ':' :: '/' :: '/' :: rest => some ([], rest)
  | c :: rest => (splitSchemeGo rest).map (fun p => (c :: p.1, p.2))
  | [] => none

/-- Modelled from the aiohttp_socks / python_socks library contract of
`parse_proxy_url`, which `ProxyConnector.from_url` calls (not in src/;
third-party): the URL must be `scheme://[user:password@]host:port` with
scheme one of `socks4`, `socks5`, `http`, a nonempty host (taken after the
last `@`) and a nonempty decimal port within 0-65535; anything else (and
any URL with no `://`) raises `ValueError`.  Modelled for the path-free
URLs this pipeline builds. -/
def proxyUrlParses (proxyUrl : String) : Bool :=
  match splitSchemeGo proxyUrl.data with
  | none => false
  | some (scheme, rest) =>
      ((⟨scheme⟩ : String) = "socks4" || (⟨scheme⟩ : String) = "socks5"
        || (⟨scheme⟩ : String) = "http") &&
      (let hostPort := (charSplitGo '@' [] rest).reverse.headD []
       let colonParts := charSplitGo ':' [] hostPort
       let port := colonParts.reverse.headD []
       decide (colonParts.length ≥ 2) &&
       !colonParts.dropLast.flatten.isEmpty &&
       !port.isEmpty && port.all isAsciiDigit &&
       decide (port.foldl (fun acc ch => acc * 10 + (ch.toNat - 48)) 0 ≤ 65535))

/-- Embeds `try_http_request_with_proxy`
(src/app/tasks/utils/network_request.py:64-131; `try_http_call_with_proxy`
in src/app/tasks/check_proxies.py:83-148 is the same logic).  For SOCKS4
and SOCKS5 candidates the connector is built first, by
`ProxyConnector.from_url(proxy_url)` OUTSIDE the `try` block
(network_request.py:88-89): a proxy URL that `parse_proxy_url` rejects
raises `ValueError` there, which propagates to the caller with no
`graceful_shutdown` pause.  Otherwise the value is the returned
`ProxyHttpResult option` paired with the milliseconds of the
`graceful_shutdown` pause performed before returning.  On a response, the
body text is kept only for 2xx statuses and the shutdown pause runs
before the return; every raised exception class of the GET has a handler
(`pass`, `pass`, or a catch-all that only logs), after which the shutdown
pause runs and `None` is returned. -/
def tryHttpRequestWithProxy (_url proxyUrl : String) (protocol : Protocol)
    (outcome : RequestOutcome) : Except PyErr (Option ProxyHttpResult × Nat) :=
  if (protocol = .SOCKS4 ∨ protocol = .SOCKS5) ∧ proxyUrlParses proxyUrl = false then
    .error .valueError
  else
    match outcome with
    | .success duration status body =>
        .ok (some ⟨duration, status, if 200 ≤ status ∧ status < 300 then body else ""⟩,
          gracefulShutdownMs protocol)
    | .clientError => .ok (none, gracefulShutdownMs protocol)
    | .clientConnectorCertificateError => .ok (none, gracefulShutdownMs protocol)
    | .clientConnectorSSLError => .ok (none, gracefulShutdownMs protocol)
    | .proxyConnectionError => .ok (none, gracefulShutdownMs protocol)
    | .proxyError => .ok (none, gracefulShutdownMs protocol)
    | .osError => .ok (none, gracefulShutdownMs protocol)
    | .incompleteReadError => .ok (none, gracefulShutdownMs protocol)
    | .otherException => .ok (none, gracefulShutdownMs protocol)

/-- Strips leading and trailing `\r` and `\n`, Python `strip("\r\n")`. -/
def pyStripCRLF (s : String) : String :=
  ⟨((s.data.dropWhile fun c => c = '\r' || c = '\n').reverse.dropWhile
    (fun c => c = '\r' || c = '\n')).reverse⟩

/-- Embeds `validate_aws_response` (src/app/tasks/check_proxies.py:151-168,
identically src/app/tasks/utils/aws_check.py:40-57): the status must be
exactly 200, the body stripped of CR/LF must parse as an IP literal, and
that IP must equal the candidate's advertised address. -/
def validateAwsResponse (address : Ipv4) (response : ProxyHttpResult) : Bool :=
  if response.status ≠ 200 then false
  else
    match ipAddress (pyStripCRLF response.text) with
    | none => false
    | some remote => address = remote

/-- The guard `if not response or not validate_aws_response(...)` of
`check_proxy_with_aws`: a `None` transport result or a failed validation
makes an attempt fail (a `ProxyHttpResult` named tuple is never falsy). -/
def attemptOk (address : Ipv4) (response : Option ProxyHttpResult) : Bool :=
  match response with
  | none => false
  | some r => validateAwsResponse address r

/-- Observable actions of one `check_proxy_with_aws` run: how many echo
requests were issued and whether the stability delay was slept. -/
structure CheckTrace where
  requests : Nat
  slept : Bool
deriving DecidableEq, Repr

/-- Embeds `check_proxy_with_aws` (src/app/tasks/check_proxies.py:171-210,
identically src/app/tasks/utils/aws_check.py:87-126).  The proxy URL is
formatted as in the source; the transport layer is abstracted by
`responses`, giving what `try_http_call_with_proxy` returned for the
first and second echo request.  A failed first attempt returns
`(False, 0)` immediately — no sleep, no second request; otherwise the
stability delay is slept, the check repeats, and on a second success the
returned latency is the second response's `time`. -/
def checkProxyWithAws (address : Ipv4) (port : Nat) (protocol : Protocol)
    (login password : Option String) (delay : Nat)
    (responses : Nat → Option ProxyHttpResult) : (Bool × Nat) × CheckTrace :=
  let _proxyUrl := formatProxyUrl address port protocol login password
  let _delay := delay
  match responses 0 with
  | none => ((false, 0), ⟨1, false⟩)
  | some r1 =>
      if ¬ validateAwsResponse address r1 then ((false, 0), ⟨1, false⟩)
      else
        match responses 1 with
        | none => ((false, 0), ⟨2, true⟩)
        | some r2 =>
            if ¬ validateAwsResponse address r2 then ((false, 0), ⟨2, true⟩)
            else ((true, r2.time), ⟨2, true⟩)

/-- Embeds `try_aws_http_request_with_proxy`
(src/app/tasks/utils/aws_check.py:60-84), with the transport call
abstracted by its result: `(False, 0)` unless the response exists and
validates, else `(True, response.time)`. -/
def tryAwsHttpRequestWithProxy (address : Ipv4)
    (response : Option ProxyHttpResult) : Bool × Nat :=
  match response with
  | none => (false, 0)
  | some r => if ¬ validateAwsResponse address r then (false, 0) else (true, r.time)

/-- A `ProxyHealth` row as the ORM loads it from the database: exactly the
mapped columns of `models/proxy.py:92-97` — `total_conn_attempts`,
`failed_conn_attempts` (post-typo-fix spellings), `latency`,
`last_tested`.  A freshly loaded instance carries no other attributes. -/
structure ProxyHealthOrm where
  total_conn_attempts : Nat
  failed_conn_attempts : Nat
  latency : Nat
  last_tested : Option Nat
deriving DecidableEq, Repr

/-- Python attribute read of a counter on a DB-loaded `ProxyHealth`
instance: the mapped column names resolve to their values; any other name
is found neither in the instance dict (loading sets only mapped columns)
nor on the class (`DeclarativeBase` has no `__getattr__` fallback), so
Python raises `AttributeError`. -/
def proxyHealthGetAttr (h : ProxyHealthOrm) (name : String) : Except PyErr Nat :=
  if name = "total_conn_attempts" then .ok h.total_conn_attempts
  else if name = "failed_conn_attempts" then .ok h.failed_conn_attempts
  else if name = "latency" then .ok h.latency
  else .error .attributeError

/-- One completed periodic-checker outcome for a proxy: what
`check_proxy_with_aws` returned (`success` carries the measured latency)
together with the clock reading `now` at the update. -/
inductive CheckOutcome where
  | success (responseTime : Nat) (now : Nat)
  | failure
deriving DecidableEq, Repr

/-- Embeds the health update of `check_single_proxy`
(src/app/tasks/check_proxies.py:213-242) applied to a DB-loaded proxy (the
only kind `check_proxies` feeds it, via `get_proxies`).  Line 234,
`proxy.health.total_conn_attemps += 1`, begins with an attribute READ of
`total_conn_attemps` — the pre-typo-fix spelling, which is not among the
mapped columns — so it raises before any write; the success branch
(latency / last_tested overwrite) and the failure branch's
`failed_conn_attemps += 1` (line 240) are unreachable on this snapshot. -/
def checkSingleProxy (h : ProxyHealthOrm) (outcome : CheckOutcome) :
    Except PyErr ProxyHealthOrm := do
  let total ← proxyHealthGetAttr h "total_conn_attemps"
  match outcome with
  | .success t now =>
      pure { h with total_conn_attempts := total + 1, latency := t, last_tested := some now }
  | .failure => do
      let failed ← proxyHealthGetAttr h "failed_conn_attemps"
      pure { h with total_conn_attempts := total + 1, failed_conn_attempts := failed + 1 }

/-- One periodic-checker cycle as `check_proxies`
(src/app/tasks/check_proxies.py:245-265) handles it: the tasks run under
`asyncio.gather(return_exceptions=True)`, a raised `check_single_proxy`
comes back as an exception object, and the update loop's
`isinstance(proxy, BaseException): continue` skips it, leaving the stored
health untouched; a normal result would be persisted via
`proxy_service.update`. -/
def checkCycle (h : ProxyHealthOrm) (outcome : CheckOutcome) : ProxyHealthOrm :=
  match checkSingleProxy h outcome with
  | .error _ => h
  | .ok h2 => h2

/-- Several periodic-checker cycles applied to one proxy's stored health,
in order. -/
def runChecks (h : ProxyHealthOrm) (outcomes : List CheckOutcome) : ProxyHealthOrm :=
  outcomes.foldl checkCycle h

/-- The outcome of one task handed to `cgather`: a non-`None` value, a
`None` result, or a raised exception (which
`asyncio.gather(return_exceptions=True)` returns in the task's position). -/
inductive TaskOutcome (T : Type) where
  | value (t : T)
  | noneResult
  | raised
deriving DecidableEq, Repr

/-- Embeds `cgather` (src/app/tasks/utils/gather.py:8-36): the semaphore
bounds admission but `asyncio.gather` still returns one result per task,
positionally; the final comprehension keeps exactly the results that are
neither `None` nor exceptions. -/
def cgather {T : Type} (tasks : List (TaskOutcome T)) : List T :=
  tasks.filterMap (fun o => match o with | .value t => some t | _ => none)

/-- A stored proxy row: the unique-key columns (address, port, protocol)
declared by `UniqueConstraint` (src/app/models/proxy.py:119) plus a
representative payload column. -/
structure ProxyRow where
  address : Ipv4
  port : Nat
  protocol : Protocol
  latency : Nat
deriving DecidableEq, Repr

/-- The conflict target of the bulk insert. -/
def rowKey (r : ProxyRow) : Ipv4 × Nat × Protocol := (r.address, r.port, r.protocol)

/-- Number of stored rows with the given key. -/
def countKey (db : List ProxyRow) (k : Ipv4 × Nat × Protocol) : Nat :=
  db.countP (fun r => rowKey r = k)

/-- Embeds `ProxyRepository.add_bulk` (src/app/repository/proxy.py:44-67):
a PostgreSQL `INSERT ... ON CONFLICT DO NOTHING` against the
`(address, port, protocol)` unique constraint.  The database engine's
conflict handling is modelled on the declared constraint: each offered row
is appended only when no already-stored row (including rows inserted
earlier in the same statement) has its key; conflicting rows are skipped
silently, leaving the stored row untouched. -/
def addBulk (db : List ProxyRow) (proxies : List ProxyRow) : List ProxyRow :=
  proxies.foldl
    (fun acc r => if acc.any (fun q => rowKey q = rowKey r) then acc else acc ++ [r]) db

/-! ## Helper lemmas -/

/-- The typo'd counter read of `check_single_proxy` raises: the attribute
name of check_proxies.py:234 is not a mapped column of `ProxyHealth`. -/
lemma checkSingleProxy_raises (h : ProxyHealthOrm) (outcome : CheckOutcome) :
    checkSingleProxy h outcome = .error .attributeError := by
  cases outcome <;> rfl

/-- `addBulk` of a single row: insert unless the key is already stored. -/
lemma addBulk_single (db : List ProxyRow) (r : ProxyRow) :
    addBulk db [r]
      = if db.any (fun q => rowKey q = rowKey r) then db else db ++ [r] := rfl

/-- A stored row with the offered row's key blocks the single-row insert. -/
lemma addBulk_single_mem (db : List ProxyRow) (r : ProxyRow) :
    ∃ q ∈ addBulk db [r], rowKey q = rowKey r := by
  rw [addBulk_single]
  split
  · next hany =>
      obtain ⟨q, hq, he⟩ := List.any_eq_true.mp hany
      exact ⟨q, hq, of_decide_eq_true he⟩
  · exact ⟨r, by simp, rfl⟩

/-- Appending one row adds its key's count and leaves other keys alone. -/
lemma countKey_append_single (db : List ProxyRow) (r : ProxyRow) (k : Ipv4 × Nat × Protocol) :
    countKey (db ++ [r]) k = countKey db k + (if rowKey r = k then 1 else 0) := by
  simp only [countKey, List.countP_append, List.countP_cons, List.countP_nil]
  split <;> simp_all

/-- A bulk insert over a database whose keys are unique proceeds key by
key; one inserted row keeps per-key multiplicity at most one. -/
lemma addBulk_single_countKey_le (db : List ProxyRow) (r : ProxyRow)
    (hdb : ∀ k, countKey db k ≤ 1) : ∀ k, countKey (addBulk db [r]) k ≤ 1 := by
  intro k
  rw [addBulk_single]
  split
  · exact hdb k
  · next hany =>
      have hnot : ∀ q ∈ db, rowKey q ≠ rowKey r := by
        intro q hq he
        exact hany (List.any_eq_true.mpr ⟨q, hq, decide_eq_true he⟩)
      rw [countKey_append_single]
      by_cases hk : rowKey r = k
      · have hzero : countKey db k = 0 := by
          rw [countKey, List.countP_eq_zero]
          intro q hq
          simpa using fun he => hnot q hq (by rw [he, hk])
        simp [hzero, hk]
      · simp only [hk, if_false]
        simpa using hdb k

/-- `addBulk` keeps per-key multiplicity at most one. -/
lemma addBulk_countKey_le (rows : List ProxyRow) (db : List ProxyRow)
    (hdb : ∀ k, countKey db k ≤ 1) : ∀ k, countKey (addBulk db rows) k ≤ 1 := by
  induction rows generalizing db with
  | nil => exact hdb
  | cons r rows ih =>
      have hsplit : addBulk db (r :: rows) = addBulk (addBulk db [r]) rows := rfl
      rw [hsplit]
      exact ih (addBulk db [r]) (addBulk_single_countKey_le db r hdb)

/-! ## Claims -/

/-- Claim C2 (code bug): the fetch orchestrator is claimed to increment
each source's totalConnAttempts by one per run (plus failedConnAttempts
on failure, lastUsed := now, persisted).  Evaluating the embedded
`fetch_all_proxy_lists` on a run with one configured source whose download
succeeds with one candidate: the candidate is accumulated, but the
source's health comes out exactly as it went in — counters 0, lastUsed
still unset — because the function contains no health bookkeeping at all.
The repository's own test
(test_fetch_all_proxy_lists_updates_source_health) expects
totalConnAttempts == 1 and a persisted update after this very scenario. -/
theorem c2_fetch_run_source_health_untouched :
    fetchAllProxyLists
      [⟨"http://example.com", some .HTTP, ⟨0, 0, none⟩⟩]
      (fun _ proto => .ok (some [(⟨8, 8, 8, 8⟩, 8080, proto)]))
      = ([(⟨8, 8, 8, 8⟩, 8080, .HTTP)], [⟨0, 0, none⟩]) := by
  decide

/-- Claim C4, counterexample: `try_parse_ip_port` accepts
`"127.0.0.1:8080"` even though 127.0.0.1 is not globally routable, so
parsing the claim's five-line set yields two candidates, not one. -/
theorem c4_counterexample :
    tryParseIpPort "127.0.0.1:8080" = some (⟨127, 0, 0, 1⟩, 8080) ∧
    (Ipv4.mk 127 0 0 1).isGlobal = false ∧
    (["127.0.0.1:8080", "8.8.8.8:8080", "invalid", "1.2.3.4:0",
      "1.2.3.4:65536"].filterMap tryParseIpPort).length = 2 := by
  refine ⟨by decide, by decide, by decide⟩

/-- Claim C1: `check_proxy_with_aws` validates a candidate only when both
echo checks succeed; a failed first check returns failure immediately with
no stability sleep and no second request; and when both succeed the
reported latency is the second attempt's measured time. -/
theorem c1_two_phase_confirmation :
    ∀ (address : Ipv4) (port : Nat) (protocol : Protocol)
      (login password : Option String) (delay : Nat)
      (responses : Nat → Option ProxyHttpResult),
      ((checkProxyWithAws address port protocol login password delay responses).1.1 = true ↔
        attemptOk address (responses 0) = true ∧ attemptOk address (responses 1) = true) ∧
      (attemptOk address (responses 0) = false →
        checkProxyWithAws address port protocol login password delay responses
          = ((false, 0), ⟨1, false⟩)) ∧
      (∀ r2, attemptOk address (responses 0) = true → responses 1 = some r2 →
        validateAwsResponse address r2 = true →
        checkProxyWithAws address port protocol login password delay responses
          = ((true, r2.time), ⟨2, true⟩)) := by
  intro address port protocol login password delay responses
  rcases h0 : responses 0 with _ | r1
  · simp [checkProxyWithAws, attemptOk, h0]
  · cases hv1 : validateAwsResponse address r1
    · simp [checkProxyWithAws, attemptOk, h0, hv1]
    · rcases h1 : responses 1 with _ | r2
      · simp [checkProxyWithAws, attemptOk, h0, h1, hv1]
      · cases hv2 : validateAwsResponse address r2 <;>
          simp [checkProxyWithAws, attemptOk, h0, h1, hv1, hv2]

/-- Claim C1 witness: a first-attempt transport failure short-circuits. -/
theorem c1_witness :
    checkProxyWithAws ⟨1, 2, 3, 4⟩ 8080 .HTTP none none 5 (fun _ => none)
      = ((false, 0), ⟨1, false⟩) :=
  (c1_two_phase_confirmation ⟨1, 2, 3, 4⟩ 8080 .HTTP none none 5 (fun _ => none)).2.1 rfl

/-- Claim C10: whenever the liveness check fails — missing response,
non-200 status, unparsable echo body, mismatched echoed IP, or a failed
second confirmation — the reported latency is exactly 0; the helper
`try_aws_http_request_with_proxy` likewise pairs `False` with 0. -/
theorem c10_failed_check_reports_zero_latency :
    ∀ (address : Ipv4) (port : Nat) (protocol : Protocol)
      (login password : Option String) (delay : Nat)
      (responses : Nat → Option ProxyHttpResult),
      (¬(attemptOk address (responses 0) = true ∧ attemptOk address (responses 1) = true) →
        (checkProxyWithAws address port protocol login password delay responses).1
          = (false, 0)) ∧
      (∀ response, (tryAwsHttpRequestWithProxy address response).1 = false →
        (tryAwsHttpRequestWithProxy address response).2 = 0) := by
  intro address port protocol login password delay responses
  constructor
  · intro hfailcase
    rcases h0 : responses 0 with _ | r1
    · simp [checkProxyWithAws, attemptOk, h0]
    · cases hv1 : validateAwsResponse address r1
      · simp [checkProxyWithAws, attemptOk, h0, hv1]
      · rcases h1 : responses 1 with _ | r2
        · simp [checkProxyWithAws, attemptOk, h0, h1, hv1]
        · cases hv2 : validateAwsResponse address r2
          · simp [checkProxyWithAws, attemptOk, h0, h1, hv1, hv2]
          · exact absurd ⟨by simp [attemptOk, h0, hv1], by simp [attemptOk, h1, hv2]⟩
              hfailcase
  · intro response hfail
    rcases response with _ | r
    · rfl
    · simp only [tryAwsHttpRequestWithProxy] at hfail ⊢
      by_cases hv : validateAwsResponse address r <;> simp_all [hv]

/-- Claim C10 witness: a candidate whose first echo check succeeded with a
measured time (120 ms) but whose second check failed still reports
latency 0. -/
theorem c10_witness :
    (checkProxyWithAws ⟨1, 2, 3, 4⟩ 8080 .HTTP none none 5
      (fun i => if i = 0 then some ⟨120, 200, "1.2.3.4"⟩ else none)).1 = (false, 0) :=
  (c10_failed_check_reports_zero_latency ⟨1, 2, 3, 4⟩ 8080 .HTTP none none 5
    (fun i => if i = 0 then some ⟨120, 200, "1.2.3.4"⟩ else none)).1 (by decide)

/-- Claim C5 (code bug): `download_proxy_list` returns `None` without
raising on a non-200 status and on an empty body, but on a request-level
`aiohttp.ClientError` the handler only logs and control falls through to
`data.splitlines()` with `data` never assigned, so the function raises
`UnboundLocalError` instead of returning `None` as its docstring states. -/
theorem c5_download_failure_modes :
    ∀ (protocol : Protocol) (status : Nat) (text : String),
      (status ≠ 200 → downloadProxyList (.response status text) protocol = .ok none) ∧
      downloadProxyList (.response 200 "") protocol = .ok none ∧
      downloadProxyList .clientError protocol = .error .unboundLocalError := by
  intro protocol status text
  refine ⟨fun h => ?_, by simp [downloadProxyList], rfl⟩
  simp [downloadProxyList, h]

/-- Claim C5 witness: a 500 response yields `None` (no exception). -/
theorem c5_witness : downloadProxyList (.response 500 "ignored") .HTTP = .ok none :=
  (c5_download_failure_modes .HTTP 500 "ignored").1 (by decide)

/-- Claim C6 (code bug): on every DB-loaded proxy the health update of
`check_single_proxy` raises `AttributeError` at its first statement — line
234 reads `total_conn_attemps`, a pre-typo-fix attribute name that
`ProxyHealth` (models/proxy.py:92-97) no longer defines — so no counter is
ever incremented; the gather in `check_proxies` swallows the exception and
the update loop skips the proxy, leaving the stored health untouched.
After the claimed 5 recheck cycles with 2 successes and 3 failures the
counters still read 0 and 0 and last-tested is unchanged, not 5 / 3 / the
most recent success. -/
theorem c6_health_update_raises_attribute_error :
    (∀ (h : ProxyHealthOrm) (outcome : CheckOutcome),
       checkSingleProxy h outcome = .error .attributeError) ∧
    (∀ (h : ProxyHealthOrm) (outcomes : List CheckOutcome), runChecks h outcomes = h) ∧
    runChecks ⟨0, 0, 0, none⟩
      [.success 100 1, .failure, .success 120 3, .failure, .failure]
      = ⟨0, 0, 0, none⟩ := by
  have hfix : ∀ (h : ProxyHealthOrm) (outcomes : List CheckOutcome),
      runChecks h outcomes = h := by
    intro h outcomes
    induction outcomes generalizing h with
    | nil => rfl
    | cons o os ih =>
        have hstep : checkCycle h o = h := by
          rw [checkCycle, checkSingleProxy_raises]
        calc runChecks h (o :: os) = runChecks (checkCycle h o) os := rfl
          _ = runChecks h os := by rw [hstep]
          _ = h := ih h
  exact ⟨checkSingleProxy_raises, hfix, hfix _ _⟩

/-- Claim C7: the bounded gatherer returns exactly the successfully
produced non-null values — membership in the output coincides with a
successful task producing that value, and each value appears as many
times as tasks produced it; null results and raised exceptions are
filtered out. -/
theorem c7_cgather_keeps_exactly_successes :
    ∀ {T : Type} [DecidableEq T] (tasks : List (TaskOutcome T)) (t : T),
      (t ∈ cgather tasks ↔ TaskOutcome.value t ∈ tasks) ∧
      (cgather tasks).count t = tasks.count (TaskOutcome.value t) := by
  intro T _ tasks t
  induction tasks with
  | nil => simp [cgather]
  | cons o os ih =>
      obtain ⟨ih1, ih2⟩ := ih
      cases o <;>
        simp_all [cgather, List.count_cons, List.filterMap_cons]

/-- Claim C7 witness: a mixed batch keeps both successes of value 3. -/
theorem c7_witness :
    (cgather [TaskOutcome.value 3, .noneResult, .raised, .value 3, .value 7]).count 3 = 2 := by
  have h := (c7_cgather_keeps_exactly_successes
    [TaskOutcome.value 3, .noneResult, .raised, .value 3, .value 7] 3).2
  simpa using h

/-- Claim C8, counterexample: for a SOCKS5 candidate with a malformed
proxy URL, `ProxyConnector.from_url` — called outside the `try` block —
raises `ValueError` that propagates to the caller, with no
`graceful_shutdown` pause on that path; so the executor does not collapse
every failure to `None` for every invocation. -/
theorem c8_counterexample :
    tryHttpRequestWithProxy "https://checkip.amazonaws.com/" "" .SOCKS5 .otherException
      = .error .valueError := rfl

/-- Claim C8, amended: for HTTP/HTTPS candidates, and for SOCKS
candidates whose proxy URL the connector accepts, the executor never
propagates an exception — every exception class of the GET's taxonomy
(transport, TLS certificate, proxy-library, unclassified) collapses to
`None` — and on every such path it performs the cooperative shutdown
pause before returning: 250 ms when the candidate protocol is HTTPS, a
zero-delay yield otherwise.  The URLs the pipeline formats for its
candidates are accepted by the connector. -/
theorem c8_guarded_no_raise_always_pauses :
    (∀ (url proxyUrl : String) (protocol : Protocol) (outcome : RequestOutcome),
       (protocol = .HTTP ∨ protocol = .HTTPS ∨ proxyUrlParses proxyUrl = true) →
       ∃ result, tryHttpRequestWithProxy url proxyUrl protocol outcome
           = .ok (result, if protocol = .HTTPS then 250 else 0) ∧
         (outcome.raised = true → result = none)) ∧
    proxyUrlParses "socks5://1.2.3.4:8080" = true ∧
    proxyUrlParses (formatProxyUrl ⟨1, 2, 3, 4⟩ 8080 .SOCKS5 (some "u") (some "p")) = true ∧
    proxyUrlParses (formatProxyUrl ⟨1, 2, 3, 4⟩ 1080 .SOCKS4) = true := by
  refine ⟨?_, by decide, by decide, by decide⟩
  intro url proxyUrl protocol outcome hok
  have hcond : ¬ ((protocol = .SOCKS4 ∨ protocol = .SOCKS5)
      ∧ proxyUrlParses proxyUrl = false) := by
    rintro ⟨hp | hp, hfalse⟩ <;> rcases hok with h | h | h <;> simp_all
  rw [tryHttpRequestWithProxy.eq_def, if_neg hcond]
  cases outcome <;> exact ⟨_, rfl, by simp [RequestOutcome.raised]⟩

/-- Claim C8 witness: an unclassified proxy-library error through a SOCKS5
candidate with a well-formed proxy URL yields `None` after the zero-delay
pause. -/
theorem c8_witness :
    tryHttpRequestWithProxy "https://checkip.amazonaws.com/" "socks5://1.2.3.4:8080"
      .SOCKS5 .proxyError = .ok (none, 0) := by
  obtain ⟨result, heq, hraised⟩ := c8_guarded_no_raise_always_pauses.1
    "https://checkip.amazonaws.com/" "socks5://1.2.3.4:8080" .SOCKS5 .proxyError
    (Or.inr (Or.inr (by decide)))
  rw [hraised rfl] at heq
  simpa using heq

/-- Claim C9: `format_proxy_url` lower-cases its output, downgrades the
HTTPS scheme to `http`, and embeds `login:password@` credentials exactly
when the protocol is SOCKS5 and both login and password are truthy; the
three specified example inputs format accordingly. -/
theorem c9_format_proxy_url :
    (∀ (protocol : Protocol) (login password : Option String),
       credentialsFor protocol login password ≠ "" ↔
         protocol = .SOCKS5 ∧ pyTruthy login = true ∧ pyTruthy password = true) ∧
    (∀ (protocol : Protocol) (login password : Option String),
       credentialsFor protocol login password ≠ "" →
         credentialsFor protocol login password
           = login.getD "" ++ ":" ++ password.getD "" ++ "@") ∧
    protocolValueFor .HTTPS = "http" ∧
    formatProxyUrl ⟨127, 0, 0, 1⟩ 8080 .HTTPS = "http://127.0.0.1:8080" ∧
    formatProxyUrl ⟨127, 0, 0, 1⟩ 8080 .SOCKS5 (some "u") (some "p")
      = "socks5://u:p@127.0.0.1:8080" ∧
    formatProxyUrl ⟨127, 0, 0, 1⟩ 8080 .SOCKS5 none none = "socks5://127.0.0.1:8080" := by
  refine ⟨?_, ?_, by decide, by decide, by decide, by decide⟩
  · intro protocol login password
    by_cases hc : protocol = Protocol.SOCKS5 ∧ pyTruthy login = true ∧ pyTruthy password = true
    · rw [credentialsFor, if_pos hc]
      refine ⟨fun _ => hc, fun _ h => ?_⟩
      have hlen := congrArg String.length h
      rw [String.length_append] at hlen
      have hat : "@".length = 1 := rfl
      have hnil : "".length = 0 := rfl
      omega
    · rw [credentialsFor, if_neg hc]
      simp [hc]
  · intro protocol login password h
    rw [credentialsFor] at h ⊢
    split at h
    · next hc => rw [if_pos hc]
    · exact absurd rfl h

/-- Claim C9 witness: SOCKS5 with both credentials embeds them. -/
theorem c9_witness : credentialsFor .SOCKS5 (some "u") (some "p") ≠ "" :=
  (c9_format_proxy_url.1 .SOCKS5 (some "u") (some "p")).mpr ⟨rfl, rfl, rfl⟩

/-- Claim C4, amended: `try_parse_ip_port` rejects every line whose port
lies outside 1–65535, whose IP literal is unparsable, or whose colon
count differs from the two recognized shapes; global routability is NOT
enforced by the parser but downstream in `fetch_proxies`, and composing
the parse with that `is_global` filter on the specified five-line set
leaves exactly the candidate (8.8.8.8, 8080). -/
theorem c4_parser_rejections_and_global_filter :
    (∀ (line : String) (ip : Ipv4) (port : Int),
       tryParseIpPort line = some (ip, port) → 1 ≤ port ∧ port ≤ 65535) ∧
    (∀ (line : String) (ip : Ipv4) (port : Int),
       tryParseIpPort line = some (ip, port) →
         (pySplit line ':').length = 2 ∨ (pySplit line ':').length = 3) ∧
    tryParseIpPort "invalid" = none ∧
    tryParseIpPort "1.2.3.4:0" = none ∧
    tryParseIpPort "1.2.3.4:65536" = none ∧
    ((["127.0.0.1:8080", "8.8.8.8:8080", "invalid", "1.2.3.4:0",
       "1.2.3.4:65536"].filterMap tryParseIpPort).filter (fun p => p.1.isGlobal))
      = [(⟨8, 8, 8, 8⟩, 8080)] := by
  refine ⟨?_, ?_, by decide, by decide, by decide, by decide⟩
  · intro line ip port h
    simp only [tryParseIpPort] at h
    split at h
    · exact absurd h (by simp)
    · next ipStr portStr _ =>
        rcases hip : ipAddress ipStr with _ | ip0
        · rw [hip] at h; simp at h
        · rcases hpi : pyInt portStr with _ | port0
          · rw [hip, hpi] at h; simp at h
          · rw [hip, hpi] at h
            simp only [] at h
            split at h
            · next hv =>
                obtain ⟨h1, h2⟩ : ip0 = ip ∧ port0 = port := by simpa using h
                simp only [validatePort, Bool.and_eq_true, decide_eq_true_eq] at hv
                exact h2 ▸ hv
            · simp at h
  · intro line ip port h
    simp only [tryParseIpPort] at h
    split at h
    · exact absurd h (by simp)
    · next hmatch =>
        split at hmatch
        · next heq => left; rw [heq]; rfl
        · next heq => right; rw [heq]; rfl
        · exact absurd hmatch (by simp)

/-- Claim C4 witness: a line with a valid in-range port parses. -/
theorem c4_witness :
    (1 : Int) ≤ 8080 ∧ (8080 : Int) ≤ 65535 :=
  c4_parser_rejections_and_global_filter.1 "8.8.8.8:8080" ⟨8, 8, 8, 8⟩ 8080 (by decide)

/-- Claim C3: bulk insertion is idempotent on the (address, port,
protocol) key — inserting a row whose key is already stored (in the same
statement or a later run) is silently ignored, leaves the stored row
untouched, and the store keeps exactly one record per key. -/
theorem c3_bulk_insert_idempotent :
    ∀ (db : List ProxyRow) (r1 r2 : ProxyRow), rowKey r2 = rowKey r1 →
      (addBulk db [r1, r2] = addBulk db [r1] ∧
       addBulk (addBulk db [r1]) [r2] = addBulk db [r1]) ∧
      (countKey db (rowKey r1) = 0 →
        countKey (addBulk (addBulk db [r1]) [r2]) (rowKey r1) = 1) ∧
      (∀ rows, (∀ k, countKey db k ≤ 1) → ∀ k, countKey (addBulk db rows) k ≤ 1) := by
  intro db r1 r2 hk
  have hany2 : (addBulk db [r1]).any (fun q => rowKey q = rowKey r2) = true := by
    obtain ⟨q, hq, he⟩ := addBulk_single_mem db r1
    exact List.any_eq_true.mpr ⟨q, hq, decide_eq_true (by rw [he, hk])⟩
  have h2 : addBulk (addBulk db [r1]) [r2] = addBulk db [r1] := by
    rw [addBulk_single (addBulk db [r1]) r2, if_pos hany2]
  have h1 : addBulk db [r1, r2] = addBulk db [r1] := by
    have hstep : addBulk db [r1, r2] = addBulk (addBulk db [r1]) [r2] := rfl
    rw [hstep, h2]
  refine ⟨⟨h1, h2⟩, ?_, fun rows hdb => addBulk_countKey_le rows db hdb⟩
  intro hzero
  rw [h2, addBulk_single]
  have hno : ¬ db.any (fun q => rowKey q = rowKey r1) = true := by
    intro hany
    obtain ⟨q, hq, he⟩ := List.any_eq_true.mp hany
    have hpos : 0 < countKey db (rowKey r1) :=
      List.countP_pos_iff.mpr ⟨q, hq, he⟩
    omega
  rw [if_neg hno, countKey_append_single, hzero, if_pos rfl]

/-- Claim C3 witness: re-offering a stored key (even with a different
payload) leaves exactly one record for it. -/
theorem c3_witness :
    countKey
      (addBulk (addBulk [] [⟨⟨8, 8, 8, 8⟩, 80, .HTTP, 50⟩]) [⟨⟨8, 8, 8, 8⟩, 80, .HTTP, 99⟩])
      (rowKey ⟨⟨8, 8, 8, 8⟩, 80, .HTTP, 50⟩) = 1 :=
  (c3_bulk_insert_idempotent [] ⟨⟨8, 8, 8, 8⟩, 80, .HTTP, 50⟩
    ⟨⟨8, 8, 8, 8⟩, 80, .HTTP, 99⟩ rfl).2.1 rfl

end ProxiesNg
